import Mathlib

/-!
Shallow embedding of the news-classifier UI app (src/app.py).

The app is a Streamlit page: a classify form, a history viewer with clear
and CSV export, and a feedback control.  We embed the session-state logic
as pure functions: the session state is a record, every button handler is
a function from state to state (plus a list of emitted UI messages), and
the opaque classifier artifact is a pair of fallible functions
(`predict`, `predict_proba`) returning `Except` (a raised Python
exception becomes `.error` carrying the exception text).

Python dicts with optional keys become structures with `Option` fields:
a `HistoryRecord`'s `feedback` key is absent exactly when the `feedback`
field is `none`.  Floats become `ℚ`.  Text being classified is `List Char`
so that slicing (`[:100]`) and `strip()` are literal list operations.
-/

namespace NewsDetector

/-- One stored classification result (the dict appended at app.py:90-95).
A dict key that may be absent (`feedback`, added only at app.py:156) is an
`Option` field, `none` meaning the key is not present. -/
structure HistoryRecord where
  text : List Char
  label : String
  confidence : ℚ
  timestamp : String
  feedback : Option String
deriving DecidableEq, Repr

/-- `st.session_state`: the `history` list and the `show_history` flag
(app.py:20-23, defaults `[]` and `False`). -/
structure SessionState where
  history : List HistoryRecord
  show_history : Bool
deriving DecidableEq, Repr

/-- The opaque model artifact: `predict` yields the predicted index
(`int(model.predict([text])[0])`), `predict_proba` the probability row
(`model.predict_proba([text])[0]`).  Either call may raise; a raised
exception is `.error` with the exception text `str(e)`. -/
structure Model where
  predict : List Char → Except String Int
  predict_proba : List Char → Except String (List ℚ)

/-- The fixed label map `{0: "FAKE", 1: "REAL"}` (app.py:11), as an
association list; `label_map[i]` is `label_map.lookup i`. -/
def label_map : List (Int × String) := [(0, "FAKE"), (1, "REAL")]

/-- UI messages emitted by the handlers (`st.error`, `st.warning`,
`st.success`, `st.info`, and the result panel of app.py:101-106, which
shows the label and — when truthy — the confidence). -/
inductive Msg where
  | error : String → Msg
  | warning : String → Msg
  | success : String → Msg
  | info : String → Msg
  | result : String → Option ℚ → Msg
deriving DecidableEq, Repr

/-- Python whitespace for `str.strip()` (ASCII fragment: space, tab,
newline, carriage return, vertical tab, form feed). -/
def isPySpace (c : Char) : Bool :=
  c = ' ' || c = '\t' || c = '\n' || c = '\r' || c = '\x0b' || c = '\x0c'

/-- `user_input.strip()`: drop whitespace from both ends. -/
def pyStrip (s : List Char) : List Char :=
  ((s.dropWhile isPySpace).reverse.dropWhile isPySpace).reverse

/-- Python's binary max: keep the current value unless the next one is
strictly greater. -/
def pyMax (a b : ℚ) : ℚ := if a < b then b else a

/-- The inner `try` of app.py:83-87: `confidence = max(proba)` when
`predict_proba` succeeds on a nonempty row; the bare `except` turns a
raised exception (including `max` on an empty row) into `None`. -/
def confidenceOf : Except String (List ℚ) → Option ℚ
  | .error _ => none
  | .ok [] => none
  | .ok (p :: ps) => some (ps.foldl pyMax p)

/-- The CLASSIFY handler (app.py:76-110).  Returns the updated session
state and the emitted messages.  `now` stands for
`datetime.now().strftime("%Y-%m-%d %H:%M:%S")`.  The outer `try` catches
an exception from `predict` or from the `label_map` lookup (a `KeyError`
whose text is the key) and shows `Classification failed: ...`; the stored
confidence is `confidence or 0.0`; the result panel shows the confidence
only when it is truthy (not `None` and not `0.0`). -/
def classify (m : Model) (user_input : List Char) (now : String)
    (st : SessionState) : SessionState × List Msg :=
  if (pyStrip user_input).isEmpty then
    (st, [.warning "Please enter some text to classify."])
  else
    match m.predict user_input with
    | .error e => (st, [.error ("Classification failed: " ++ e)])
    | .ok prediction =>
      match label_map.lookup prediction with
      | none => (st, [.error ("Classification failed: " ++ toString prediction)])
      | some predicted_label =>
        let confidence := confidenceOf (m.predict_proba user_input)
        let newRecord : HistoryRecord :=
          { text := user_input
            label := predicted_label
            confidence := confidence.getD 0
            timestamp := now
            feedback := none }
        ({ st with history := st.history ++ [newRecord] },
         [.result predicted_label
            (match confidence with
             | some c => if c = 0 then none else some c
             | none => none)])

/-- `st.session_state.history[-1]["feedback"] = "Incorrect"` (app.py:156):
the last element of the list gets its `feedback` field set. -/
def setFeedbackLast : List HistoryRecord → List HistoryRecord
  | [] => []
  | [r] => [{ r with feedback := some "Incorrect" }]
  | r :: r2 :: rs => r :: setFeedbackLast (r2 :: rs)

/-- The Submit Feedback handler (app.py:153-157): the mutation runs only
when the selectbox holds "No", the button was clicked, and the section is
rendered at all (history nonempty, app.py:150). -/
def submitFeedback (st : SessionState) (choice : String) (clicked : Bool) :
    SessionState :=
  if choice = "No" && clicked && !st.history.isEmpty then
    { st with history := setFeedbackLast st.history }
  else st

/-- One user interaction: a click of one of the app's buttons (classify,
toggle history, clear history, export history, submit feedback). -/
inductive Op where
  | classifyOp : List Char → String → Op
  | toggle : Op
  | clear : Op
  | exportHistory : Op
  | feedback : String → Bool → Op
deriving DecidableEq, Repr

/-- The effect of one interaction on the session state: classify appends
(app.py:90), toggle flips `show_history` (app.py:116), clear empties the
list (app.py:132), export reads but never writes state (app.py:136-144),
feedback runs `submitFeedback`. -/
def step (m : Model) (st : SessionState) : Op → SessionState
  | .classifyOp input now => (classify m input now st).1
  | .toggle => { st with show_history := !st.show_history }
  | .clear => { st with history := [] }
  | .exportHistory => st
  | .feedback choice clicked => submitFeedback st choice clicked

/-- One rendered entry of the history viewer (app.py:125-130): label,
`confidence*100` (formatted to one decimal by the page), timestamp, and
`item['text'][:100]` with an unconditional trailing `...`. -/
structure DisplayEntry where
  label : String
  confidencePct : ℚ
  timestamp : String
  textShown : List Char
deriving DecidableEq, Repr

/-- How one record is rendered in the viewer. -/
def displayEntry (r : HistoryRecord) : DisplayEntry :=
  { label := r.label
    confidencePct := r.confidence * 100
    timestamp := r.timestamp
    textShown := r.text.take 100 ++ ['.', '.', '.'] }

/-- `reversed(st.session_state.history[-10:])` (app.py:124): the last ten
records, newest first, each rendered. -/
def displayedEntries (h : List HistoryRecord) : List DisplayEntry :=
  ((h.drop (h.length - 10)).reverse).map displayEntry

/-- The four keys every record dict is created with (app.py:90-95). -/
def K4 : List String := ["text", "label", "confidence", "timestamp"]

/-- The full key list once `feedback` has been added (app.py:156). -/
def K5 : List String := K4 ++ ["feedback"]

/-- The keys of one record's dict, in insertion order: the four creation
keys (app.py:90-95), then `feedback` when that key was later added. -/
def recKeys (r : HistoryRecord) : List String :=
  K4 ++ (if r.feedback.isSome then ["feedback"] else [])

/-- `pd.DataFrame(list_of_dicts)` column inference: scan the rows and
append each not-yet-seen key. -/
def addKeys (cols ks : List String) : List String :=
  cols ++ ks.filter (fun k => !cols.contains k)

/-- Columns of `pd.DataFrame(st.session_state.history)` (app.py:137):
union of the records' keys in order of first appearance. -/
def dfColumns (h : List HistoryRecord) : List String :=
  h.foldl (fun cols r => addKeys cols (recKeys r)) []

/-- A cell value of the exported table. -/
inductive Cell where
  | str : String → Cell
  | num : ℚ → Cell
deriving DecidableEq, Repr

/-- Key lookup in one record's dict; `none` is pandas `NaN` (the key is
absent in that row). -/
def recGet (r : HistoryRecord) (k : String) : Option Cell :=
  if k = "text" then some (.str (String.mk r.text))
  else if k = "label" then some (.str r.label)
  else if k = "confidence" then some (.num r.confidence)
  else if k = "timestamp" then some (.str r.timestamp)
  else if k = "feedback" then r.feedback.map .str
  else none

/-- The rows of the DataFrame, one per history record in list order, each
row listing the record's value under every column. -/
def dfRows (h : List HistoryRecord) : List (List (Option Cell)) :=
  h.map (fun r => (dfColumns h).map (recGet r))

/-- `df.to_csv` cell serialization: a missing value (NaN) becomes the
empty string. -/
def renderCell : Option Cell → String
  | none => ""
  | some (.str s) => s
  | some (.num q) => toString q

/-- `load_model()` (app.py:8-15): with the artifact present, return the
model and the label map; on `FileNotFoundError`, show an error and return
`(None, None)` — the function returns instead of crashing. -/
def load_model (artifact : Option Model) :
    (Option Model × Option (List (Int × String))) × List Msg :=
  match artifact with
  | some m => ((some m, some label_map), [])
  | none =>
    ((none, none),
     [.error "Model file \x27news_classifier_model.pkl\x27 not found."])

/-- Python truthiness of the loaded label map: `None` and the empty dict
are falsy. -/
def truthyLabelMap : Option (List (Int × String)) → Bool
  | none => false
  | some l => !l.isEmpty

/-- `if model and label_map:` (app.py:75): gate around the CLASSIFY
button. -/
def uiEnabled (mo : Option Model) (lm : Option (List (Int × String))) : Bool :=
  mo.isSome && truthyLabelMap lm

/-- `if st.session_state.show_history and model and label_map:`
(app.py:120): gate around the history box. -/
def historyBoxShown (st : SessionState) (mo : Option Model)
    (lm : Option (List (Int × String))) : Bool :=
  st.show_history && uiEnabled mo lm

/-- `if model and label_map and st.session_state.history:` (app.py:150):
gate around the feedback section. -/
def feedbackShown (mo : Option Model) (lm : Option (List (Int × String)))
    (st : SessionState) : Bool :=
  uiEnabled mo lm && !st.history.isEmpty

/-! Concrete fixtures: a model matching the spec's scenario (predict
returns 1, predict_proba returns [0.2, 0.8]), a model whose
`predict_proba` raises, and sample records and states. -/

/-- A model behaving as in the spec's scenario: `predict` returns 1 and
`predict_proba` returns `[0.2, 0.8]`. -/
def mScenario : Model :=
  { predict := fun _ => .ok 1
    predict_proba := fun _ => .ok [1/5, 4/5] }

/-- A model whose `predict` succeeds (index 1) but whose `predict_proba`
raises. -/
def mProbaRaises : Model :=
  { predict := fun _ => .ok 1
    predict_proba := fun _ => .error "proba boom" }

/-- A model whose `predict` itself raises. -/
def mPredictRaises : Model :=
  { predict := fun _ => .error "predict boom"
    predict_proba := fun _ => .error "predict boom" }

/-- The input text of the spec's scenario. -/
def scenarioText : List Char := "Stocks rally on earnings".toList

/-- A sample record with no feedback key. -/
def recNoFb : HistoryRecord :=
  { text := ['a'], label := "FAKE", confidence := 0,
    timestamp := "2025-01-01 00:00:00", feedback := none }

/-- A sample record carrying feedback. -/
def recFb : HistoryRecord :=
  { text := ['b'], label := "REAL", confidence := 1,
    timestamp := "2025-01-02 00:00:00", feedback := some "Incorrect" }

/-- A sample session state with one record and the viewer hidden. -/
def st1 : SessionState := { history := [recNoFb], show_history := false }

/-! Helper lemmas. -/

lemma pyMax_eq_max (a b : ℚ) : pyMax a b = max a b := by
  rcases lt_or_ge a b with h | h
  · simp [pyMax, h, max_eq_right h.le]
  · simp [pyMax, not_lt.2 h, max_eq_left h]

lemma foldl_pyMax_eq_foldl_max (p : ℚ) (ps : List ℚ) :
    ps.foldl pyMax p = ps.foldl max p := by
  induction ps generalizing p with
  | nil => rfl
  | cons q qs ih => simp [List.foldl_cons, pyMax_eq_max, ih]

lemma classify_hist_shape (m : Model) (input : List Char) (now : String)
    (st : SessionState) :
    (classify m input now st).1.history = st.history ∨
    ∃ r : HistoryRecord,
      (classify m input now st).1.history = st.history ++ [r] ∧
      r.feedback = none := by
  unfold classify
  split
  · exact Or.inl rfl
  · split
    · exact Or.inl rfl
    · split
      · exact Or.inl rfl
      · exact Or.inr ⟨_, rfl, rfl⟩

lemma classify_show_history (m : Model) (input : List Char) (now : String)
    (st : SessionState) :
    (classify m input now st).1.show_history = st.show_history := by
  unfold classify
  split
  · rfl
  · split
    · rfl
    · split <;> rfl

lemma setFeedbackLast_length (l : List HistoryRecord) :
    (setFeedbackLast l).length = l.length := by
  induction l with
  | nil => rfl
  | cons r rs ih =>
    cases rs with
    | nil => rfl
    | cons r2 rs2 => simp [setFeedbackLast] at ih ⊢; omega

lemma setFeedbackLast_getElem? (l : List HistoryRecord) (i : ℕ) :
    (setFeedbackLast l)[i]? =
      if i + 1 = l.length then
        (l[i]?).map (fun r => { r with feedback := some "Incorrect" })
      else l[i]? := by
  induction l generalizing i with
  | nil => simp [setFeedbackLast]
  | cons r rs ih =>
    cases rs with
    | nil =>
      cases i with
      | zero => simp [setFeedbackLast]
      | succ j => simp [setFeedbackLast]
    | cons r2 rs2 =>
      cases i with
      | zero => simp [setFeedbackLast]
      | succ j =>
        have hlhs : (setFeedbackLast (r :: r2 :: rs2))[j + 1]? =
            (setFeedbackLast (r2 :: rs2))[j]? := by
          simp [setFeedbackLast]
        have hidx : ((r :: r2 :: rs2) : List HistoryRecord)[j + 1]? =
            (r2 :: rs2)[j]? := by simp
        have hcond : j + 1 = (r2 :: rs2).length ↔
            j + 1 + 1 = (r :: r2 :: rs2).length := by
          simp
        rw [hlhs, ih j, hidx]
        by_cases hc : j + 1 = (r2 :: rs2).length
        · rw [if_pos hc, if_pos (hcond.mp hc)]
        · rw [if_neg hc, if_neg (fun hx => hc (hcond.mpr hx))]

lemma step_length_mono (m : Model) (st : SessionState) (op : Op)
    (hop : op ≠ Op.clear) :
    st.history.length ≤ (step m st op).history.length := by
  cases op with
  | classifyOp input now =>
    rcases classify_hist_shape m input now st with h | ⟨r, h, _⟩ <;> simp [step, h]
  | toggle => simp [step]
  | clear => exact absurd rfl hop
  | exportHistory => simp [step]
  | feedback choice clicked =>
    simp only [step, submitFeedback]
    split
    · simp [setFeedbackLast_length]
    · exact le_refl _

lemma step_frame (m : Model) (st : SessionState) (op : Op) (i : ℕ)
    (hop : op ≠ Op.clear) (hi : i < st.history.length) :
    ∃ r r' : HistoryRecord,
      st.history[i]? = some r ∧ (step m st op).history[i]? = some r' ∧
      r'.text = r.text ∧ r'.label = r.label ∧ r'.confidence = r.confidence ∧
      r'.timestamp = r.timestamp ∧
      (r'.feedback ≠ r.feedback →
        i + 1 = st.history.length ∧ op = Op.feedback "No" true) := by
  have hr : st.history[i]? = some st.history[i] := List.getElem?_eq_getElem hi
  cases op with
  | classifyOp input now =>
    rcases classify_hist_shape m input now st with hsh | ⟨nr, hsh, _⟩
    · exact ⟨_, _, hr, by simp [step, hsh, hr],
        rfl, rfl, rfl, rfl, fun hne => absurd rfl hne⟩
    · refine ⟨_, _, hr, ?_, rfl, rfl, rfl, rfl, fun hne => absurd rfl hne⟩
      simp [step, hsh, List.getElem?_append, hi, hr]
  | toggle =>
    exact ⟨_, _, hr, hr, rfl, rfl, rfl, rfl, fun hne => absurd rfl hne⟩
  | clear => exact absurd rfl hop
  | exportHistory =>
    exact ⟨_, _, hr, hr, rfl, rfl, rfl, rfl, fun hne => absurd rfl hne⟩
  | feedback choice clicked =>
    simp only [step, submitFeedback]
    split
    · rename_i hcond
      simp only [Bool.and_eq_true, decide_eq_true_eq] at hcond
      obtain ⟨⟨hc, hk⟩, -⟩ := hcond
      subst hc
      subst hk
      by_cases hlast : i + 1 = st.history.length
      · refine ⟨st.history[i], { st.history[i] with feedback := some "Incorrect" },
          hr, ?_, rfl, rfl, rfl, rfl, fun _ => ⟨hlast, rfl⟩⟩
        simp [setFeedbackLast_getElem?, hlast, hr]
      · refine ⟨_, _, hr, ?_, rfl, rfl, rfl, rfl, fun hne => absurd rfl hne⟩
        simp [setFeedbackLast_getElem?, hlast, hr]
    · exact ⟨_, _, hr, hr, rfl, rfl, rfl, rfl, fun hne => absurd rfl hne⟩

lemma recKeys_eq (r : HistoryRecord) :
    recKeys r = if r.feedback.isSome then K5 else K4 := by
  cases hf : r.feedback <;> simp [recKeys, K5, hf]

lemma addKeys_nil (ks : List String) : addKeys [] ks = ks := by
  simp [addKeys]

lemma addKeys_K4_K4 : addKeys K4 K4 = K4 := by decide

lemma addKeys_K4_K5 : addKeys K4 K5 = K5 := by decide

lemma addKeys_K5_K4 : addKeys K5 K4 = K5 := by decide

lemma addKeys_K5_K5 : addKeys K5 K5 = K5 := by decide

lemma addKeys_K5_recKeys (r : HistoryRecord) : addKeys K5 (recKeys r) = K5 := by
  cases hf : r.feedback <;> simp [recKeys_eq, hf, addKeys_K5_K4, addKeys_K5_K5]

lemma addKeys_K4_recKeys (r : HistoryRecord) :
    addKeys K4 (recKeys r) = if r.feedback.isSome then K5 else K4 := by
  cases hf : r.feedback <;> simp [recKeys_eq, hf, addKeys_K4_K4, addKeys_K4_K5]

lemma foldl_addKeys_from_K5 (rs : List HistoryRecord) :
    rs.foldl (fun cols r => addKeys cols (recKeys r)) K5 = K5 := by
  induction rs with
  | nil => rfl
  | cons r rs ih =>
    simp only [List.foldl_cons]
    rw [addKeys_K5_recKeys]
    exact ih

lemma foldl_addKeys_from_K4 (rs : List HistoryRecord) :
    rs.foldl (fun cols r => addKeys cols (recKeys r)) K4 =
      if rs.any (fun r => r.feedback.isSome) then K5 else K4 := by
  induction rs with
  | nil => rfl
  | cons r rs ih =>
    simp only [List.foldl_cons]
    rw [addKeys_K4_recKeys]
    cases hf : r.feedback with
    | none =>
      simp only [hf, Option.isSome_none, Bool.false_eq_true, if_false]
      rw [ih]
      simp only [List.any_cons, hf, Option.isSome_none, Bool.false_or]
    | some v =>
      simp only [hf, Option.isSome_some, if_true]
      rw [foldl_addKeys_from_K5]
      simp only [List.any_cons, hf, Option.isSome_some, Bool.true_or, if_true]

lemma dfColumns_eq (h : List HistoryRecord) (hne : h ≠ []) :
    dfColumns h = if h.any (fun r => r.feedback.isSome) then K5 else K4 := by
  cases h with
  | nil => exact absurd rfl hne
  | cons r rs =>
    show (r :: rs).foldl (fun cols r => addKeys cols (recKeys r)) [] = _
    simp only [List.foldl_cons]
    rw [addKeys_nil]
    cases hf : r.feedback with
    | none =>
      rw [show recKeys r = K4 by simp [recKeys_eq, hf], foldl_addKeys_from_K4]
      simp only [List.any_cons, hf, Option.isSome_none, Bool.false_or]
    | some v =>
      rw [show recKeys r = K5 by simp [recKeys_eq, hf], foldl_addKeys_from_K5]
      simp only [List.any_cons, hf, Option.isSome_some, Bool.true_or, if_true]


/-! Claim theorems. -/

/-- Claim C1 (corrected): an exception from `predict` or from the
label-map lookup is caught by the outer handler (app.py:107); the only
output is one generic error message carrying the exception text, and no
record is appended.  An exception from `predict_proba`, however, is
caught by the inner bare `except` (app.py:86): no error message is shown
and a record IS appended, with confidence 0.0. -/
theorem classify_error_handling (m : Model) (input : List Char)
    (now : String) (st : SessionState)
    (h1 : (pyStrip input).isEmpty = false) :
    (∀ e, m.predict input = .error e →
      classify m input now st =
        (st, [.error ("Classification failed: " ++ e)])) ∧
    (∀ idx, m.predict input = .ok idx → label_map.lookup idx = none →
      classify m input now st =
        (st, [.error ("Classification failed: " ++ toString idx)])) ∧
    (∀ idx lbl e, m.predict input = .ok idx →
      label_map.lookup idx = some lbl →
      m.predict_proba input = .error e →
      (classify m input now st).1.history = st.history ++
        [{ text := input, label := lbl, confidence := 0,
           timestamp := now, feedback := none }] ∧
      ∀ s, Msg.error s ∉ (classify m input now st).2) := by
  refine ⟨?_, ?_, ?_⟩
  · intro e he
    simp [classify, h1, he]
  · intro idx h2 h3
    simp [classify, h1, h2, h3]
  · intro idx lbl e h2 h3 hp
    constructor
    · simp [classify, h1, h2, h3, hp, confidenceOf]
    · intro s
      simp [classify, h1, h2, h3, hp, confidenceOf]

/-- Witness for C1: a model whose `predict` raises with text
"predict boom" yields exactly the generic error message and an unchanged
state. -/
theorem classify_error_handling_witness :
    classify mPredictRaises scenarioText "t" st1 =
      (st1, [.error ("Classification failed: " ++ "predict boom")]) :=
  (classify_error_handling mPredictRaises scenarioText "t" st1
    (by decide)).1 "predict boom" rfl

/-- Counterexample to claim C2 as stated: a history whose single record
has no feedback exports with a four-column header — there is no
`feedback` column at all, contradicting the claimed fixed five-column
header. -/
theorem export_header_no_feedback_cex :
    dfColumns [recNoFb] = ["text", "label", "confidence", "timestamp"] ∧
    "feedback" ∉ dfColumns [recNoFb] := by
  constructor
  · decide
  · decide

/-- Claim C2 (corrected): the export has one row per history record in
list insertion order; the header is the four creation columns, with a
`feedback` column appended exactly when at least one record carries
feedback; when that column exists, a record without feedback serialises
to the empty string there (pandas NaN rendered by `to_csv`). -/
theorem export_csv_shape (h : List HistoryRecord) (hne : h ≠ []) :
    dfColumns h = K4 ++
      (if h.any (fun r => r.feedback.isSome) then ["feedback"] else []) ∧
    (dfRows h).length = h.length ∧
    (∀ i : ℕ, (dfRows h)[i]? =
      (h[i]?).map (fun r => (dfColumns h).map (recGet r))) ∧
    (∀ r : HistoryRecord, r.feedback = none →
      renderCell (recGet r "feedback") = "") := by
  refine ⟨?_, by simp [dfRows], fun i => by simp [dfRows, List.getElem?_map],
    fun r hf => by simp [renderCell, recGet, hf]⟩
  rw [dfColumns_eq h hne]
  cases hany : h.any (fun r => r.feedback.isSome) <;> simp [K5]

/-- Witness for C2 at a two-record history whose second record carries
feedback. -/
theorem export_csv_shape_witness :
    dfColumns [recNoFb, recFb] = K4 ++
      (if ([recNoFb, recFb].any fun r => r.feedback.isSome)
        then ["feedback"] else []) ∧
    (dfRows [recNoFb, recFb]).length = 2 := by
  have h := export_csv_shape [recNoFb, recFb] (by decide)
  exact ⟨h.1, h.2.1⟩

/-- Claim C3 (confirmed): for a non-blank input where `predict` returns an
index present in the label map, exactly one record is appended; its label
is the mapped value, and its confidence is the maximum of the
`predict_proba` row when that call succeeds on a nonempty row and 0.0
when it raises. -/
theorem classify_success_appends (m : Model) (input : List Char)
    (now : String) (st : SessionState)
    (h1 : (pyStrip input).isEmpty = false) (idx : Int) (lbl : String)
    (h2 : m.predict input = .ok idx)
    (h3 : label_map.lookup idx = some lbl) :
    (classify m input now st).1.history = st.history ++
      [{ text := input, label := lbl,
         confidence := (confidenceOf (m.predict_proba input)).getD 0,
         timestamp := now, feedback := none }] ∧
    (∀ p ps, m.predict_proba input = .ok (p :: ps) →
      (confidenceOf (m.predict_proba input)).getD 0 = ps.foldl max p) ∧
    (∀ e, m.predict_proba input = .error e →
      (confidenceOf (m.predict_proba input)).getD 0 = 0) := by
  refine ⟨?_, ?_, ?_⟩
  · simp [classify, h1, h2, h3]
  · intro p ps hp
    rw [hp]
    simp [confidenceOf, foldl_pyMax_eq_foldl_max]
  · intro e he
    rw [he]
    simp [confidenceOf]

/-- Witness for C3: the spec scenario — predict returns 1 and
predict_proba returns [0.2, 0.8] on "Stocks rally on earnings" — appends
one record with label REAL and confidence 0.8. -/
theorem classify_success_appends_witness :
    (classify mScenario scenarioText "2025-01-01 00:00:00"
        { history := [], show_history := false }).1.history =
      [{ text := scenarioText, label := "REAL", confidence := 4/5,
         timestamp := "2025-01-01 00:00:00", feedback := none }] := by
  have h := classify_success_appends mScenario scenarioText
    "2025-01-01 00:00:00" { history := [], show_history := false }
    (by decide) 1 "REAL" rfl (by decide)
  rw [h.1]
  norm_num [mScenario, confidenceOf, pyMax]

/-- Claim C4 (confirmed): the viewer shows exactly min(10, length)
entries, newest first (entry i is record length-1-i), and every entry
shows the first 100 characters of the text followed by an ellipsis —
unconditionally, so a text of at most 100 characters is shown whole with
a trailing ellipsis. -/
theorem history_viewer_display (h : List HistoryRecord) :
    (displayedEntries h).length = min 10 h.length ∧
    (∀ i, i < (displayedEntries h).length →
      (displayedEntries h)[i]? =
        (h[h.length - 1 - i]?).map displayEntry) ∧
    (∀ r : HistoryRecord,
      (displayEntry r).textShown = r.text.take 100 ++ ['.', '.', '.']) ∧
    (∀ r : HistoryRecord, r.text.length ≤ 100 →
      (displayEntry r).textShown = r.text ++ ['.', '.', '.']) := by
  refine ⟨?_, ?_, fun r => rfl, fun r hr => ?_⟩
  · simp [displayedEntries]
    omega
  · intro i hi
    have hdl : i < (h.drop (h.length - 10)).length := by
      simpa [displayedEntries] using hi
    simp only [displayedEntries, List.getElem?_map]
    rw [List.getElem?_reverse hdl, List.getElem?_drop]
    congr 2
    simp only [List.length_drop] at hdl ⊢
    omega
  · simp [displayEntry, List.take_of_length_le hr]

/-- Witness for C4 at a two-record history: the first displayed entry is
the rendering of the last (newest) record. -/
theorem history_viewer_display_witness :
    (displayedEntries [recNoFb, recFb])[0]? =
      ([recNoFb, recFb][1]?).map displayEntry := by
  have h := (history_viewer_display [recNoFb, recFb]).2.1 0 (by decide)
  simpa using h

/-- Claim C5 (confirmed): the history is append-only across every
operation — Clear History empties the whole list; any other operation
keeps every existing record at its index with text, label, confidence and
timestamp intact, and a field can change only for the last record's
feedback under a confirmed "No" feedback submission. -/
theorem history_append_only (m : Model) (st : SessionState) (op : Op) :
    (op = Op.clear → (step m st op).history = []) ∧
    (op ≠ Op.clear →
      st.history.length ≤ (step m st op).history.length ∧
      ∀ i, i < st.history.length →
        ∃ r r' : HistoryRecord,
          st.history[i]? = some r ∧ (step m st op).history[i]? = some r' ∧
          r'.text = r.text ∧ r'.label = r.label ∧
          r'.confidence = r.confidence ∧ r'.timestamp = r.timestamp ∧
          (r'.feedback ≠ r.feedback →
            i + 1 = st.history.length ∧ op = Op.feedback "No" true)) := by
  refine ⟨fun hc => ?_, fun hop => ⟨step_length_mono m st op hop,
    fun i hi => step_frame m st op i hop hi⟩⟩
  subst hc
  rfl

/-- Witness for C5: the feedback operation on a one-record state keeps the
record's core fields at index 0. -/
theorem history_append_only_witness :
    ∃ r r' : HistoryRecord,
      st1.history[0]? = some r ∧
      (step mScenario st1 (Op.feedback "No" true)).history[0]? = some r' ∧
      r'.text = r.text ∧ r'.label = r.label ∧
      r'.confidence = r.confidence ∧ r'.timestamp = r.timestamp ∧
      (r'.feedback ≠ r.feedback →
        0 + 1 = st1.history.length ∧
        Op.feedback "No" true = Op.feedback "No" true) := by
  have h := (history_append_only mScenario st1 (Op.feedback "No" true)).2
    (by decide)
  exact h.2 0 (by decide)

/-- Claim C6 (confirmed): with a nonempty history, submitting "No" sets
feedback = "Incorrect" on the last record and changes nothing else (same
length, same visibility flag, earlier records untouched, the last
record's other fields kept by the map); "Yes" changes no state at any
click; and no operation changes the feedback field of a non-last
record. -/
theorem feedback_last_record_only (m : Model) (st : SessionState)
    (h : st.history ≠ []) :
    ((step m st (Op.feedback "No" true)).history[st.history.length - 1]? =
      (st.history[st.history.length - 1]?).map
        (fun r => { r with feedback := some "Incorrect" })) ∧
    (step m st (Op.feedback "No" true)).history.length =
      st.history.length ∧
    (step m st (Op.feedback "No" true)).show_history = st.show_history ∧
    (∀ i, i + 1 < st.history.length →
      (step m st (Op.feedback "No" true)).history[i]? =
        st.history[i]?) ∧
    (∀ clicked, step m st (Op.feedback "Yes" clicked) = st) ∧
    (∀ (op : Op) (i : ℕ) (r r' : HistoryRecord),
      i + 1 < st.history.length →
      st.history[i]? = some r → (step m st op).history[i]? = some r' →
      r'.feedback = r.feedback) := by
  have hne : st.history.isEmpty = false := by
    cases hl : st.history with
    | nil => exact absurd hl h
    | cons a l => rfl
  have hstep : (step m st (Op.feedback "No" true)).history =
      setFeedbackLast st.history := by
    simp [step, submitFeedback, hne]
  have hpos : 0 < st.history.length := List.length_pos.2 h
  refine ⟨?_, ?_, ?_, ?_, ?_, ?_⟩
  · rw [hstep, setFeedbackLast_getElem?, if_pos (by omega)]
  · rw [hstep, setFeedbackLast_length]
  · simp [step, submitFeedback, hne]
  · intro i hi
    rw [hstep, setFeedbackLast_getElem?, if_neg (by omega)]
  · intro clicked
    simp [step, submitFeedback]
  · intro op i r r' hi hr hr'
    by_cases hop : op = Op.clear
    · subst hop
      simp [step] at hr'
    · rcases step_frame m st op i hop (by omega) with
        ⟨a, a', ha, ha', _, _, _, _, hfb⟩
      have har : a = r := Option.some.inj (ha.symm.trans hr)
      have har' : a' = r' := Option.some.inj (ha'.symm.trans hr')
      by_cases heq : r'.feedback = r.feedback
      · exact heq
      · have hcontra := hfb (by rw [har, har']; exact heq)
        omega

/-- Witness for C6 at the one-record state: the stored record gets
feedback = "Incorrect". -/
theorem feedback_last_record_only_witness :
    (step mScenario st1 (Op.feedback "No" true)).history[0]? =
      (st1.history[0]?).map
        (fun r => { r with feedback := some "Incorrect" }) := by
  have h := feedback_last_record_only mScenario st1 (by decide)
  simpa [st1] using h.1

/-- Claim C7 (confirmed): an input that strips to nothing yields only the
warning, leaves the session state untouched, and performs no
classification — the outcome does not depend on the model at all. -/
theorem empty_input_no_change (input : List Char) (now : String)
    (st : SessionState) (h : (pyStrip input).isEmpty = true) :
    ∀ m : Model, classify m input now st =
      (st, [.warning "Please enter some text to classify."]) := by
  intro m
  simp [classify, h]

/-- Witness for C7 at a whitespace-only input. -/
theorem empty_input_no_change_witness :
    classify mScenario ("  \t\n  ".toList) "t" st1 =
      (st1, [.warning "Please enter some text to classify."]) :=
  empty_input_no_change ("  \t\n  ".toList) "t" st1 (by decide) mScenario

/-- Claim C8 (confirmed): with the model artifact missing, `load_model`
catches the error, reports it once to the page, and returns
`(None, None)`; the classify gate, the history box gate and the feedback
gate all evaluate to false, so no classification is attempted and the
page renders instead of crashing. -/
theorem missing_artifact_disables_ui :
    (load_model none).1 = (none, none) ∧
    (load_model none).2 =
      [.error "Model file \x27news_classifier_model.pkl\x27 not found."] ∧
    uiEnabled none none = false ∧
    (∀ st : SessionState, historyBoxShown st none none = false ∧
      feedbackShown none none st = false) := by
  refine ⟨rfl, rfl, rfl, fun st => ⟨?_, ?_⟩⟩ <;>
    simp [historyBoxShown, feedbackShown, uiEnabled, truthyLabelMap]

/-- Claim C9 (confirmed): each toggle click flips the boolean
`show_history` flag and nothing else, so applying toggle twice returns
the session state — in particular the visibility flag — to its original
value. -/
theorem toggle_involutive (m : Model) (st : SessionState) :
    step m (step m st Op.toggle) Op.toggle = st ∧
    (step m st Op.toggle).show_history = !st.show_history ∧
    (step m st Op.toggle).history = st.history := by
  cases st
  simp [step]

/-- Claim C10 (confirmed): a record created by a successful
classification carries no feedback key (`feedback = none`), and the only
way a record's feedback key comes into existence is a confirmed "No"
feedback submission targeting the last record. -/
theorem record_creation_no_feedback (m : Model) (input : List Char)
    (now : String) (st : SessionState) :
    (∀ r : HistoryRecord,
      (classify m input now st).1.history = st.history ++ [r] →
      r.feedback = none) ∧
    (∀ (op : Op) (i : ℕ) (r r' : HistoryRecord),
      st.history[i]? = some r → (step m st op).history[i]? = some r' →
      r.feedback = none → r'.feedback ≠ none →
      op = Op.feedback "No" true ∧ i + 1 = st.history.length) := by
  constructor
  · intro r hr
    rcases classify_hist_shape m input now st with hsh | ⟨nr, hsh, hfb⟩
    · rw [hsh] at hr
      have hlen := congrArg List.length hr
      simp at hlen
    · rw [hsh] at hr
      have hsingle : [nr] = [r] := List.append_cancel_left hr
      have hnr : nr = r := by
        injection hsingle
      exact hnr ▸ hfb
  · intro op i r r' hr hr' hfnone hfsome
    have hi : i < st.history.length := by
      by_contra hge
      rw [List.getElem?_eq_none_iff.2 (by omega)] at hr
      exact Option.noConfusion hr
    by_cases hop : op = Op.clear
    · subst hop
      simp [step] at hr'
    · rcases step_frame m st op i hop hi with
        ⟨a, a', ha, ha', _, _, _, _, hfb⟩
      have har : a = r := Option.some.inj (ha.symm.trans hr)
      have har' : a' = r' := Option.some.inj (ha'.symm.trans hr')
      have hne : a'.feedback ≠ a.feedback := by
        rw [har, har', hfnone]
        exact hfsome
      obtain ⟨hlen, hopeq⟩ := hfb hne
      exact ⟨hopeq, hlen⟩

/-- Witness for C10: the record created by classifying the scenario text
under a model whose `predict_proba` raises has no feedback. -/
theorem record_creation_no_feedback_witness :
    ({ text := scenarioText, label := "REAL", confidence := 0,
       timestamp := "t", feedback := none } : HistoryRecord).feedback =
      none :=
  (record_creation_no_feedback mProbaRaises scenarioText "t"
    { history := [], show_history := false }).1 _ (by rfl)

/-- Counterexample to claim C1 as stated: under a model whose
`predict_proba` raises, the request still appends one history record and
shows no error message at all — only the result panel. -/
theorem proba_exception_appends_cex :
    mProbaRaises.predict_proba scenarioText = .error "proba boom" ∧
    (classify mProbaRaises scenarioText "t"
        { history := [], show_history := false }).1.history.length = 1 ∧
    (classify mProbaRaises scenarioText "t"
        { history := [], show_history := false }).2 =
      [Msg.result "REAL" none] := by
  refine ⟨rfl, ?_, ?_⟩
  · decide
  · decide

end NewsDetector

